import Mathlib

/-!
Shallow embedding of the W.I.T. voice processing core
(src/firmware/core/voice/voice_core.c) and proofs about its
per-frame pipeline, VAD/noise-floor logic, recording buffer and
session state machine.

Modelling conventions:
* Machine floats of the source are modelled exactly over `ℚ`; the
  transcendental per-channel energy computation `calculate_energy_db`
  (sqrtf/log10f) is abstracted by letting each frame carry its list of
  per-channel dB energies, which is the only way those values are
  consumed by the pipeline.
* The recording buffer is modelled as the list of its live bytes
  `recording_buffer[0 .. recording_size)`; bytes beyond
  `recording_size` are never read by the source, so the pair
  (list, `recording_size`) captures every observable behaviour.
* FreeRTOS objects (queue, mutex, timers, the circular context buffer
  and the external audio callback) are outside the per-frame state the
  claims are about and are not modelled; the processing task body for
  one dequeued frame is `voice_processing_task_step`.
* `uint32_t` arithmetic on timestamps is modelled with explicit
  `% 2^32` wrap-around (`usub32`).
-/

/-- Modelled from the spec: the `voice_state_t` enumeration is declared in
the repository's `voice_core.h`, which is absent from the sources (the file
at that path is an unrelated host-side script); members are taken from the
spec's session state machine and the uses in `voice_core.c`. -/
inductive voice_state_t where
  | VOICE_STATE_IDLE
  | VOICE_STATE_LISTENING
  | VOICE_STATE_WAKE_DETECTED
  | VOICE_STATE_RECORDING
  | VOICE_STATE_PROCESSING
  | VOICE_STATE_ERROR
deriving DecidableEq

open voice_state_t

/-- Modelled from the spec: the `voice_error_t` enumeration is declared in
the missing `voice_core.h`; members are taken from the spec's error
taxonomy (section 7) and the codes returned in `voice_core.c`. -/
inductive voice_error_t where
  | VOICE_OK
  | VOICE_ERR_INVALID_PARAM
  | VOICE_ERR_INVALID_STATE
  | VOICE_ERR_BUFFER_OVERFLOW
  | VOICE_ERR_OUT_OF_MEMORY
deriving DecidableEq

open voice_error_t

/-- Statistics block `voice_stats_t`; field list from the spec's data model
(the declaring header is absent) and the fields written by `voice_core.c`. -/
structure voice_stats_t where
  frames_processed : ℕ
  buffer_overruns : ℕ
  vad_activations : ℕ
  wake_detections : ℕ
  avg_energy_db : ℚ
  noise_floor_db : ℚ
  cpu_usage_percent : ℚ
deriving DecidableEq

/-- The all-zero statistics block (`memset(&ctx->stats, 0, ...)`). -/
def zero_stats : voice_stats_t :=
  { frames_processed := 0, buffer_overruns := 0, vad_activations := 0,
    wake_detections := 0, avg_energy_db := 0, noise_floor_db := 0,
    cpu_usage_percent := 0 }

/-- The fields of `struct voice_context` (voice_core.c lines 22-74) that
participate in the per-frame pipeline and public operations under proof.
`wake_callbacks` holds, per registered wake-word model in registration
order, whether its callback pointer is non-null; `sim_counter` embeds the
`static int simulation_counter` of `process_wake_word_detection`. -/
structure voice_context where
  state : voice_state_t
  recording : List ℕ
  recording_size : ℕ
  recording_capacity : ℕ
  is_recording : Bool
  recording_start_time : ℕ
  max_recording_duration : ℕ
  current_steering_angle : ℚ
  adaptive_mode : Bool
  beamform_weights : List ℚ
  wake_callbacks : List Bool
  sim_counter : ℕ
  last_wake_time : ℕ
  noise_floor : ℚ
  vad_frame_count : ℕ
  vad_active : Bool
  stats : voice_stats_t
deriving DecidableEq

/-- A frame as it enters the processing task: interleaved samples,
per-channel dB energies (abstracting `calculate_energy_db`), timestamp. -/
structure voice_frame_t where
  samples : List ℤ
  energies : List ℚ
  timestamp_ms : ℕ
deriving DecidableEq

/-- A frame after the VAD pass has populated its `vad_active` flag
(voice_core.c line 248). -/
structure post_vad_frame where
  samples : List ℤ
  timestamp_ms : ℕ
  vad_active : Bool
deriving DecidableEq

/-- Unsigned `uint32_t` subtraction `a - b` with wrap-around modulo `2^32`. -/
def usub32 (a b : ℕ) : ℕ :=
  (a % 2 ^ 32 + (2 ^ 32 - b % 2 ^ 32)) % 2 ^ 32

/-- Truncation of a rational toward zero, as the C cast of a float to an
integer type does. -/
def ratTrunc (q : ℚ) : ℤ :=
  if 0 ≤ q.num then ((q.num.toNat / q.den : ℕ) : ℤ)
  else -(((-q.num).toNat / q.den : ℕ) : ℤ)

/-- Saturation `(int16_t)fminf(fmaxf(x, -32768.0f), 32767.0f)` (voice_core.c line 284):
clamp to the int16 range, then truncate toward zero. -/
def satI16 (x : ℚ) : ℤ :=
  if x ≤ -32768 then -32768
  else if 32767 ≤ x then 32767
  else ratTrunc x

/-- Little-endian byte encoding of one 16-bit signed sample, as laid down
by the `memcpy` of `int16_t mono_frame[]` into the byte recording buffer. -/
def encode_i16le (s : ℤ) : List ℕ :=
  [(s % 65536).toNat % 256, (s % 65536).toNat / 256]

/-- The weighted saturating mono mixdown of voice_core.c lines 277-285:
`mono[i] = sat(Σ_ch samples[i*CHANNELS + ch] * weights[ch])` for
`i < FRAME_LEN`, with `CHANNELS = weights.length`. -/
def mono_mixdown (FRAME_LEN : ℕ) (weights : List ℚ) (samples : List ℤ) : List ℤ :=
  (List.range FRAME_LEN).map fun i =>
    satI16 (((List.range weights.length).map fun ch =>
      ((samples.getD (i * weights.length + ch) 0 : ℤ) : ℚ) * weights.getD ch 0).sum)

/-- Bytes appended to the recording buffer for one frame: the mono mixdown
encoded as little-endian 16-bit PCM. -/
def frame_to_bytes (FRAME_LEN : ℕ) (weights : List ℚ) (samples : List ℤ) : List ℕ :=
  ((mono_mixdown FRAME_LEN weights samples).map encode_i16le).flatten

/-- Function `update_noise_floor` (voice_core.c lines 451-456): exponential moving
average with `alpha = 0.95`, mirrored into `stats.noise_floor_db`. -/
def update_noise_floor (ctx : voice_context) (current_energy : ℚ) : voice_context :=
  { ctx with
    noise_floor := (95 / 100 : ℚ) * ctx.noise_floor + (1 - 95 / 100) * current_energy,
    stats := { ctx.stats with
      noise_floor_db := (95 / 100 : ℚ) * ctx.noise_floor + (1 - 95 / 100) * current_energy } }

/-- Function `detect_voice_activity` (voice_core.c lines 347-391) given the list of
per-channel dB energies of the frame (`energies.length = VOICE_CHANNELS`):
counts channels above `noise_floor + 6`, averages the energies, updates the
noise floor during silence, then makes the hysteresis decision. Returns the
updated context and the returned `ctx->vad_active`. -/
def detect_voice_activity (VAD_FRAME_THRESHOLD : ℕ) (ctx : voice_context)
    (energies : List ℚ) : voice_context × Bool :=
  let active_channels := (energies.filter fun e => ctx.noise_floor + 6 < e).length
  let avg_energy := energies.sum / (energies.length : ℚ)
  let c1 := { ctx with stats := { ctx.stats with avg_energy_db := avg_energy } }
  let c2 := if c1.vad_active then c1 else update_noise_floor c1 avg_energy
  let energy_vad : Bool := decide (c2.noise_floor + 10 < avg_energy)
  let channel_vad : Bool := decide (energies.length / 2 ≤ active_channels)
  let cnt := if energy_vad && channel_vad then c2.vad_frame_count + 1 else 0
  let act : Bool := decide (VAD_FRAME_THRESHOLD ≤ cnt)
  ({ c2 with vad_frame_count := cnt, vad_active := act }, act)

/-- Function `apply_beamforming` (voice_core.c lines 394-415): resets the weights to
the uniform `1/VOICE_CHANNELS`; the delay computation (float trigonometry)
writes only `beamform_delays`, which no observable path reads, and is
therefore not modelled. The frame samples are not modified. -/
def apply_beamforming (ctx : voice_context) : voice_context :=
  { ctx with beamform_weights := List.replicate ctx.beamform_weights.length ((1 : ℚ) / (ctx.beamform_weights.length : ℚ)) }

/-- The callback loop of voice_core.c lines 441-446: index of the first
registered wake-word model whose callback pointer is non-null, if any. -/
def first_callback_idx : List Bool → Option ℕ
  | [] => none
  | b :: rest => if b then some 0 else (first_callback_idx rest).map (· + 1)

/-- Function `process_wake_word_detection` (voice_core.c lines 418-448). Returns the
updated context and the list of indices of wake-word callbacks invoked (the
loop at lines 441-446 calls the first registered model whose callback
pointer is non-null, then breaks; timer arming is an external effect). -/
def process_wake_word_detection (ctx : voice_context) (frame_vad : Bool)
    (timestamp_ms : ℕ) : voice_context × List ℕ :=
  let cnt := ctx.sim_counter + 1
  let c1 := { ctx with sim_counter := cnt }
  if frame_vad = true ∧ cnt % 500 = 0 then
    ({ c1 with
        state := VOICE_STATE_WAKE_DETECTED,
        last_wake_time := timestamp_ms,
        stats := { c1.stats with wake_detections := c1.stats.wake_detections + 1 } },
     (first_callback_idx c1.wake_callbacks).toList)
  else (c1, [])

/-- Function `voice_stop_recording` body on a non-null context (voice_core.c lines
492-501). -/
def voice_stop_recording_ctx (ctx : voice_context) : voice_context :=
  { ctx with is_recording := false, state := VOICE_STATE_PROCESSING }

/-- Function `voice_stop_recording` at the public interface; `none` models a NULL
context pointer. -/
def voice_stop_recording (ctx : Option voice_context) :
    voice_error_t × Option voice_context :=
  match ctx with
  | none => (VOICE_ERR_INVALID_PARAM, none)
  | some c => (VOICE_OK, some (voice_stop_recording_ctx c))

/-- The recording append of the VOICE_STATE_RECORDING case (voice_core.c
lines 272-291): if the frame fits, append the mono mixdown bytes. -/
def voice_record_append (FRAME_LEN : ℕ) (ctx : voice_context)
    (f : post_vad_frame) : voice_context :=
  if ctx.recording_size + FRAME_LEN * 2 ≤ ctx.recording_capacity then
    { ctx with
      recording := ctx.recording ++ frame_to_bytes FRAME_LEN ctx.beamform_weights f.samples,
      recording_size := ctx.recording_size + FRAME_LEN * 2 }
  else ctx

/-- The recording-timeout check of voice_core.c lines 294-297. -/
def voice_recording_timeout_check (f : post_vad_frame) (ctx : voice_context) :
    voice_context :=
  if ctx.max_recording_duration < usub32 f.timestamp_ms ctx.recording_start_time then
    voice_stop_recording_ctx ctx
  else ctx

/-- The whole `case VOICE_STATE_RECORDING` arm (voice_core.c lines 270-298)
applied to a frame whose `vad_active` flag has been populated. -/
def recording_case_step (FRAME_LEN : ℕ) (ctx : voice_context)
    (f : post_vad_frame) : voice_context :=
  voice_recording_timeout_check f
    (if f.vad_active = true ∧ ctx.is_recording = true then
       voice_record_append FRAME_LEN ctx f
     else ctx)

/-- Statement `ctx->stats.frames_processed++` (voice_core.c line 238). -/
def stats_frame_inc (ctx : voice_context) : voice_context :=
  { ctx with stats := { ctx.stats with
      frames_processed := ctx.stats.frames_processed + 1 } }

/-- The conditional beamforming call of voice_core.c lines 241-244. -/
def beamform_stage (ctx : voice_context) : voice_context :=
  if ctx.adaptive_mode = true ∨ ctx.current_steering_angle ≠ 0 then
    apply_beamforming ctx
  else ctx

/-- Statement `if (vad_result) ctx->stats.vad_activations++` (lines 250-252). -/
def vad_count_stage (ctx : voice_context) (vad_result : Bool) : voice_context :=
  if vad_result then
    { ctx with stats := { ctx.stats with
        vad_activations := ctx.stats.vad_activations + 1 } }
  else ctx

/-- The state-machine switch of voice_core.c lines 255-307. The
WAKE_DETECTED arm performs its auto-transition into RECORDING and falls
through to the RECORDING arm, exactly as the C `switch` does. -/
def dispatch_stage (FRAME_LEN : ℕ) (ctx : voice_context) (vad_result : Bool)
    (f : voice_frame_t) : voice_context :=
  match ctx.state with
  | VOICE_STATE_IDLE =>
      (process_wake_word_detection ctx vad_result f.timestamp_ms).1
  | VOICE_STATE_LISTENING =>
      (process_wake_word_detection ctx vad_result f.timestamp_ms).1
  | VOICE_STATE_WAKE_DETECTED =>
      recording_case_step FRAME_LEN
        { ctx with
          state := VOICE_STATE_RECORDING,
          recording_start_time := f.timestamp_ms,
          recording_size := 0, recording := [],
          is_recording := true }
        { samples := f.samples, timestamp_ms := f.timestamp_ms, vad_active := vad_result }
  | VOICE_STATE_RECORDING =>
      recording_case_step FRAME_LEN ctx
        { samples := f.samples, timestamp_ms := f.timestamp_ms, vad_active := vad_result }
  | VOICE_STATE_PROCESSING => ctx
  | VOICE_STATE_ERROR => ctx

/-- One iteration of `voice_processing_task` (voice_core.c lines 236-326)
for a dequeued frame: statistics, conditional beamforming, VAD, the
activation counter, then the state machine. The trailing circular-buffer
copy and the external audio callback touch no field modelled here. -/
def voice_processing_task_step (VAD_FRAME_THRESHOLD FRAME_LEN : ℕ)
    (ctx : voice_context) (f : voice_frame_t) : voice_context :=
  let c1 := beamform_stage (stats_frame_inc ctx)
  let vd := detect_voice_activity VAD_FRAME_THRESHOLD c1 f.energies
  dispatch_stage FRAME_LEN (vad_count_stage vd.1 vd.2) vd.2 f

/-- Function `voice_get_state` (voice_core.c lines 467-469): total at the interface,
NULL context reported as VOICE_STATE_ERROR. -/
def voice_get_state (ctx : Option voice_context) : voice_state_t :=
  match ctx with
  | none => VOICE_STATE_ERROR
  | some c => c.state

/-- Function `voice_start_recording` (voice_core.c lines 472-489). `now_ms` stands
for `xTaskGetTickCount() * portTICK_PERIOD_MS`. -/
def voice_start_recording (ctx : Option voice_context)
    (max_duration_ms now_ms : ℕ) : voice_error_t × Option voice_context :=
  match ctx with
  | none => (VOICE_ERR_INVALID_PARAM, none)
  | some c =>
    if c.state ≠ VOICE_STATE_WAKE_DETECTED ∧ c.state ≠ VOICE_STATE_IDLE then
      (VOICE_ERR_INVALID_PARAM, some c)
    else
      (VOICE_OK, some { c with
        recording_size := 0, recording := [],
        is_recording := true,
        max_recording_duration := max_duration_ms,
        recording_start_time := now_ms,
        state := VOICE_STATE_RECORDING })

/-- Function `voice_get_recording` (voice_core.c lines 504-526). The two Booleans
state whether the `buffer` and `bytes_written` pointers are non-null.
Result: (error code, context after the call, value stored through
`bytes_written` if any, bytes copied into the caller's buffer). -/
def voice_get_recording_api (ctx : Option voice_context)
    (buffer_nonnull bw_nonnull : Bool) (buffer_size : ℕ) :
    voice_error_t × Option voice_context × Option ℕ × List ℕ :=
  match ctx with
  | none => (VOICE_ERR_INVALID_PARAM, none, none, [])
  | some c =>
    if buffer_nonnull && bw_nonnull then
      if c.recording_size = 0 then
        (VOICE_OK, some c, some 0, [])
      else
        (VOICE_OK,
         some { c with recording_size := 0, recording := [],
                       state := VOICE_STATE_IDLE },
         some (min c.recording_size buffer_size),
         c.recording.take (min c.recording_size buffer_size))
    else (VOICE_ERR_INVALID_PARAM, some c, none, [])

/-- Function `voice_reset` body on a non-null context (voice_core.c lines 587-603):
state to IDLE, recording and VAD hysteresis cleared, statistics zeroed and
then `stats.noise_floor_db` restored from the live `noise_floor` estimate,
which itself is preserved. -/
def voice_reset_ctx (ctx : voice_context) : voice_context :=
  { ctx with
    state := VOICE_STATE_IDLE,
    recording_size := 0, recording := [],
    is_recording := false,
    vad_frame_count := 0,
    vad_active := false,
    stats := { zero_stats with noise_floor_db := ctx.noise_floor } }

/-- Function `voice_reset` at the public interface. -/
def voice_reset (ctx : Option voice_context) : voice_error_t × Option voice_context :=
  match ctx with
  | none => (VOICE_ERR_INVALID_PARAM, none)
  | some c => (VOICE_OK, some (voice_reset_ctx c))

/-! Concrete contexts and frames used by the counterexamples and witnesses
below. Unconstrained fields carry arbitrary representative values. -/

/-- A quiescent context in VOICE_STATE_PROCESSING with the default
noise floor of -40 dBFS and four uniform beamforming weights. -/
def ctx_vad_example : voice_context :=
  { state := VOICE_STATE_PROCESSING, recording := [], recording_size := 0,
    recording_capacity := 100, is_recording := false, recording_start_time := 0,
    max_recording_duration := 1000, current_steering_angle := 0,
    adaptive_mode := false, beamform_weights := [1/4, 1/4, 1/4, 1/4],
    wake_callbacks := [], sim_counter := 0, last_wake_time := 0,
    noise_floor := -40, vad_frame_count := 0, vad_active := false,
    stats := zero_stats }

/-- A four-channel frame of zero PCM whose channels all read 0 dBFS. -/
def frame_zero : voice_frame_t :=
  { samples := [], energies := List.replicate 4 0, timestamp_ms := 0 }

/-- Three processed zero-dB frames: enough for the VAD hysteresis
(threshold 3) to turn `vad_active` on. -/
def vad_run_warm : voice_context :=
  [frame_zero, frame_zero, frame_zero].foldl (voice_processing_task_step 3 480) ctx_vad_example

/-- A context captured mid-recording: two channels, uniform weights. -/
def ctx_recording_example : voice_context :=
  { state := VOICE_STATE_RECORDING, recording := [], recording_size := 0,
    recording_capacity := 100, is_recording := true, recording_start_time := 0,
    max_recording_duration := 1000, current_steering_angle := 0,
    adaptive_mode := false, beamform_weights := [1/2, 1/2],
    wake_callbacks := [], sim_counter := 0, last_wake_time := 0,
    noise_floor := -40, vad_frame_count := 3, vad_active := true,
    stats := zero_stats }

/-- A VAD-active two-channel frame of four interleaved samples. -/
def pv_frame_example : post_vad_frame :=
  { samples := [100, 200, 300, 400], timestamp_ms := 5, vad_active := true }

/-- A context in the ERROR state holding three recorded bytes. -/
def ctx_error_example : voice_context :=
  { ctx_vad_example with
    state := VOICE_STATE_ERROR,
    recording := [1, 2, 3], recording_size := 3 }

/-- An IDLE context (fresh after init). -/
def ctx_idle_example : voice_context :=
  { ctx_vad_example with state := VOICE_STATE_IDLE }

/-- A context one frame away from the demo wake-word trigger with no
wake-word models registered. -/
def ctx_wake_empty : voice_context :=
  { ctx_vad_example with state := VOICE_STATE_IDLE, sim_counter := 499 }

/-- A context one frame away from the demo wake-word trigger whose first
registered model has a null callback and whose second and third do not. -/
def ctx_wake_three : voice_context :=
  { ctx_vad_example with
    state := VOICE_STATE_IDLE, sim_counter := 499,
    wake_callbacks := [false, true, true] }

/-! Projection lemmas for the pipeline stages. -/

@[simp] theorem stats_frame_inc_state (c : voice_context) :
    (stats_frame_inc c).state = c.state := rfl

@[simp] theorem stats_frame_inc_noise_floor (c : voice_context) :
    (stats_frame_inc c).noise_floor = c.noise_floor := rfl

@[simp] theorem stats_frame_inc_vad_active (c : voice_context) :
    (stats_frame_inc c).vad_active = c.vad_active := rfl

@[simp] theorem stats_frame_inc_vad_frame_count (c : voice_context) :
    (stats_frame_inc c).vad_frame_count = c.vad_frame_count := rfl

@[simp] theorem stats_frame_inc_vad_activations (c : voice_context) :
    (stats_frame_inc c).stats.vad_activations = c.stats.vad_activations := rfl

@[simp] theorem beamform_stage_state (c : voice_context) :
    (beamform_stage c).state = c.state := by
  unfold beamform_stage apply_beamforming; split <;> rfl

@[simp] theorem beamform_stage_noise_floor (c : voice_context) :
    (beamform_stage c).noise_floor = c.noise_floor := by
  unfold beamform_stage apply_beamforming; split <;> rfl

@[simp] theorem beamform_stage_vad_active (c : voice_context) :
    (beamform_stage c).vad_active = c.vad_active := by
  unfold beamform_stage apply_beamforming; split <;> rfl

@[simp] theorem beamform_stage_vad_frame_count (c : voice_context) :
    (beamform_stage c).vad_frame_count = c.vad_frame_count := by
  unfold beamform_stage apply_beamforming; split <;> rfl

@[simp] theorem beamform_stage_vad_activations (c : voice_context) :
    (beamform_stage c).stats.vad_activations = c.stats.vad_activations := by
  unfold beamform_stage apply_beamforming; split <;> rfl

@[simp] theorem detect_fst_state (T : ℕ) (c : voice_context) (E : List ℚ) :
    ((detect_voice_activity T c E).1).state = c.state := by
  simp only [detect_voice_activity, update_noise_floor]; split <;> rfl

@[simp] theorem detect_fst_vad_activations (T : ℕ) (c : voice_context) (E : List ℚ) :
    ((detect_voice_activity T c E).1).stats.vad_activations = c.stats.vad_activations := by
  simp only [detect_voice_activity, update_noise_floor]; split <;> rfl

theorem detect_fst_noise_floor (T : ℕ) (c : voice_context) (E : List ℚ) :
    ((detect_voice_activity T c E).1).noise_floor =
      if c.vad_active = true then c.noise_floor
      else (95 / 100 : ℚ) * c.noise_floor + (1 - 95 / 100) * (E.sum / (E.length : ℚ)) := by
  simp only [detect_voice_activity, update_noise_floor]
  cases h : c.vad_active <;> simp [h]

@[simp] theorem vad_count_stage_state (c : voice_context) (v : Bool) :
    (vad_count_stage c v).state = c.state := by
  unfold vad_count_stage; split <;> rfl

@[simp] theorem vad_count_stage_noise_floor (c : voice_context) (v : Bool) :
    (vad_count_stage c v).noise_floor = c.noise_floor := by
  unfold vad_count_stage; split <;> rfl

theorem vad_count_stage_vad_activations (c : voice_context) (v : Bool) :
    (vad_count_stage c v).stats.vad_activations =
      c.stats.vad_activations + (if v = true then 1 else 0) := by
  unfold vad_count_stage; cases v <;> simp

@[simp] theorem process_wake_fst_noise_floor (c : voice_context) (v : Bool) (t : ℕ) :
    ((process_wake_word_detection c v t).1).noise_floor = c.noise_floor := by
  simp only [process_wake_word_detection]; split <;> rfl

@[simp] theorem process_wake_fst_vad_activations (c : voice_context) (v : Bool) (t : ℕ) :
    ((process_wake_word_detection c v t).1).stats.vad_activations =
      c.stats.vad_activations := by
  simp only [process_wake_word_detection]; split <;> rfl

@[simp] theorem voice_stop_recording_ctx_noise_floor (c : voice_context) :
    (voice_stop_recording_ctx c).noise_floor = c.noise_floor := rfl

@[simp] theorem voice_stop_recording_ctx_vad_activations (c : voice_context) :
    (voice_stop_recording_ctx c).stats.vad_activations = c.stats.vad_activations := rfl

@[simp] theorem voice_record_append_noise_floor (F : ℕ) (c : voice_context)
    (f : post_vad_frame) : (voice_record_append F c f).noise_floor = c.noise_floor := by
  unfold voice_record_append; split <;> rfl

@[simp] theorem voice_record_append_vad_activations (F : ℕ) (c : voice_context)
    (f : post_vad_frame) :
    (voice_record_append F c f).stats.vad_activations = c.stats.vad_activations := by
  unfold voice_record_append; split <;> rfl

@[simp] theorem recording_case_step_noise_floor (F : ℕ) (c : voice_context)
    (f : post_vad_frame) : (recording_case_step F c f).noise_floor = c.noise_floor := by
  unfold recording_case_step voice_recording_timeout_check
  split <;> split <;> simp

@[simp] theorem recording_case_step_vad_activations (F : ℕ) (c : voice_context)
    (f : post_vad_frame) :
    (recording_case_step F c f).stats.vad_activations = c.stats.vad_activations := by
  unfold recording_case_step voice_recording_timeout_check
  split <;> split <;> simp

theorem dispatch_stage_noise_floor (F : ℕ) (c : voice_context) (vd : Bool)
    (f : voice_frame_t) : (dispatch_stage F c vd f).noise_floor = c.noise_floor := by
  cases h : c.state <;> simp [dispatch_stage, h]

theorem dispatch_stage_vad_activations (F : ℕ) (c : voice_context) (vd : Bool)
    (f : voice_frame_t) :
    (dispatch_stage F c vd f).stats.vad_activations = c.stats.vad_activations := by
  cases h : c.state <;> simp [dispatch_stage, h]

/-- Claim C9: `voice_reset` from any state leaves state = IDLE,
recording_size = 0, is_recording = false, clears the VAD hysteresis,
zeroes the statistics except that `noise_floor_db` is restored from the
preserved noise-floor estimate, and is idempotent. -/
theorem reset_idempotent_spec (c : voice_context) :
    (voice_reset_ctx c).state = VOICE_STATE_IDLE ∧
    (voice_reset_ctx c).recording_size = 0 ∧
    (voice_reset_ctx c).recording = [] ∧
    (voice_reset_ctx c).is_recording = false ∧
    (voice_reset_ctx c).vad_frame_count = 0 ∧
    (voice_reset_ctx c).vad_active = false ∧
    (voice_reset_ctx c).stats = { zero_stats with noise_floor_db := c.noise_floor } ∧
    (voice_reset_ctx c).noise_floor = c.noise_floor ∧
    voice_reset_ctx (voice_reset_ctx c) = voice_reset_ctx c :=
  ⟨rfl, rfl, rfl, rfl, rfl, rfl, rfl, rfl, rfl⟩

/-- Claim C10: `voice_get_state` is total at the public interface: a NULL
context reads as VOICE_STATE_ERROR, a valid context reads as its current
session state, and the call is a pure observation. -/
theorem get_state_total :
    voice_get_state none = VOICE_STATE_ERROR ∧
    ∀ c : voice_context, voice_get_state (some c) = c.state :=
  ⟨rfl, fun _ => rfl⟩

/-- Claim C3 (amended): with non-null arguments and a nonempty recording,
`voice_get_recording` copies `min(recording_size, buffer_size)` bytes,
reports that count, resets `recording_size` and moves to IDLE; with an
empty recording it reports 0 bytes and leaves the context (in particular
its state) unchanged; with any null argument it returns INVALID_PARAM and
changes nothing. -/
theorem get_recording_spec (c : voice_context) (bsz : ℕ) :
    voice_get_recording_api none true true bsz = (VOICE_ERR_INVALID_PARAM, none, none, []) ∧
    (∀ bn wn : Bool, (bn && wn) = false →
      voice_get_recording_api (some c) bn wn bsz = (VOICE_ERR_INVALID_PARAM, some c, none, [])) ∧
    (c.recording_size = 0 →
      voice_get_recording_api (some c) true true bsz = (VOICE_OK, some c, some 0, [])) ∧
    (0 < c.recording_size →
      voice_get_recording_api (some c) true true bsz =
        (VOICE_OK,
         some { c with recording_size := 0, recording := [], state := VOICE_STATE_IDLE },
         some (min c.recording_size bsz),
         c.recording.take (min c.recording_size bsz))) := by
  refine ⟨rfl, ?_, ?_, ?_⟩
  · intro bn wn h
    simp [voice_get_recording_api, h]
  · intro h
    simp [voice_get_recording_api, h]
  · intro h
    have hne : c.recording_size ≠ 0 := by omega
    simp [voice_get_recording_api, hne]

/-- Claim C3 counterexample: on a context in PROCESSING with an empty
recording, `voice_get_recording` with non-null arguments succeeds but does
not move the state machine to IDLE, contradicting the claim that every
such call leaves the state machine in IDLE. -/
theorem get_recording_counterexample :
    (voice_get_recording_api (some ctx_vad_example) true true 16).1 = VOICE_OK ∧
    (voice_get_recording_api (some ctx_vad_example) true true 16).2.1 = some ctx_vad_example ∧
    ctx_vad_example.state = VOICE_STATE_PROCESSING ∧
    VOICE_STATE_PROCESSING ≠ VOICE_STATE_IDLE :=
  ⟨rfl, rfl, rfl, by simp⟩

/-- Witness for `get_recording_spec` at a concrete context with three
recorded bytes and a two-byte caller buffer. -/
theorem get_recording_spec_witness :
    voice_get_recording_api (some ctx_error_example) true true 2 =
      (VOICE_OK,
       some { ctx_error_example with
              recording_size := 0, recording := [], state := VOICE_STATE_IDLE },
       some 2, [1, 2]) := by
  have h := (get_recording_spec ctx_error_example 2).2.2.2 (by norm_num [ctx_error_example])
  rw [h]
  norm_num [ctx_error_example]

/-- Claim C4 (amended): `voice_start_recording` succeeds exactly from IDLE
or WAKE_DETECTED, initialising the recording session; from any other state
it fails with VOICE_ERR_INVALID_PARAM (not VOICE_ERR_INVALID_STATE) and
leaves the context unchanged; a NULL context also yields INVALID_PARAM. -/
theorem start_recording_spec (c : voice_context) (max_ms now : ℕ) :
    ((c.state = VOICE_STATE_IDLE ∨ c.state = VOICE_STATE_WAKE_DETECTED) →
      voice_start_recording (some c) max_ms now =
        (VOICE_OK, some { c with
          recording_size := 0, recording := [], is_recording := true,
          max_recording_duration := max_ms, recording_start_time := now,
          state := VOICE_STATE_RECORDING })) ∧
    ((c.state ≠ VOICE_STATE_IDLE ∧ c.state ≠ VOICE_STATE_WAKE_DETECTED) →
      voice_start_recording (some c) max_ms now = (VOICE_ERR_INVALID_PARAM, some c)) ∧
    voice_start_recording none max_ms now = (VOICE_ERR_INVALID_PARAM, none) := by
  refine ⟨?_, ?_, rfl⟩
  · rintro (h | h) <;> simp [voice_start_recording, h]
  · rintro ⟨h1, h2⟩
    simp [voice_start_recording, h1, h2]

/-- Claim C4 counterexample: called while RECORDING, `voice_start_recording`
returns VOICE_ERR_INVALID_PARAM, not the VOICE_ERR_INVALID_STATE error the
claim names (the context is left unchanged, as the claim says). -/
theorem start_recording_counterexample :
    voice_start_recording (some ctx_recording_example) 1000 0 =
      (VOICE_ERR_INVALID_PARAM, some ctx_recording_example) ∧
    VOICE_ERR_INVALID_PARAM ≠ VOICE_ERR_INVALID_STATE := by
  refine ⟨?_, by simp⟩
  simp [voice_start_recording, ctx_recording_example]

/-- Witness for `start_recording_spec`: success from IDLE and the
INVALID_PARAM failure from RECORDING, at concrete contexts. -/
theorem start_recording_spec_witness :
    voice_start_recording (some ctx_idle_example) 777 9 =
      (VOICE_OK, some { ctx_idle_example with
        recording_size := 0, recording := [], is_recording := true,
        max_recording_duration := 777, recording_start_time := 9,
        state := VOICE_STATE_RECORDING }) ∧
    voice_start_recording (some ctx_recording_example) 777 9 =
      (VOICE_ERR_INVALID_PARAM, some ctx_recording_example) := by
  refine ⟨(start_recording_spec ctx_idle_example 777 9).1 (Or.inl rfl), ?_⟩
  exact (start_recording_spec ctx_recording_example 777 9).2.1 (by simp [ctx_recording_example])

/-! Properties of the callback-selection loop. -/

theorem first_callback_idx_none (l : List Bool) (h : first_callback_idx l = none) :
    ∀ b ∈ l, b = false := by
  induction l with
  | nil => simp
  | cons a t ih =>
    cases a
    · simp only [first_callback_idx, Bool.false_eq_true, if_false] at h
      intro b hb
      rcases List.mem_cons.mp hb with rfl | hb
      · rfl
      · simp only [Option.map_eq_none'] at h
        exact ih h b hb
    · simp [first_callback_idx] at h

theorem first_callback_idx_some (l : List Bool) :
    ∀ j, first_callback_idx l = some j →
      l.getD j false = true ∧ ∀ i, i < j → l.getD i false = false := by
  induction l with
  | nil => intro j h; simp [first_callback_idx] at h
  | cons a t ih =>
    intro j h
    cases a
    · simp only [first_callback_idx, Bool.false_eq_true, if_false] at h
      rcases Option.map_eq_some'.mp h with ⟨j', hj', rfl⟩
      refine ⟨by simpa using (ih j' hj').1, ?_⟩
      intro i hi
      cases i with
      | zero => rfl
      | succ i => simpa using (ih j' hj').2 i (by omega)
    · simp only [first_callback_idx, if_true] at h
      have hj : j = 0 := by
        cases h; rfl
      subst hj
      exact ⟨rfl, fun i hi => by omega⟩

/-- Claim C6 (amended): on each (demo) wake detection, `wake_detections`
increments by exactly one and at most one wake-word callback is invoked:
when at least one registered model has a non-null callback the first such
model in registration order is called, otherwise no callback fires at all
(so the counter can exceed the number of callback invocations); on frames
without a detection neither the counter nor any callback fires. -/
theorem wake_callback_spec (c : voice_context) (vad : Bool) (ts : ℕ) :
    (¬ (vad = true ∧ (c.sim_counter + 1) % 500 = 0) →
      (process_wake_word_detection c vad ts).1.stats.wake_detections =
        c.stats.wake_detections ∧
      (process_wake_word_detection c vad ts).2 = []) ∧
    ((vad = true ∧ (c.sim_counter + 1) % 500 = 0) →
      (process_wake_word_detection c vad ts).1.stats.wake_detections =
        c.stats.wake_detections + 1 ∧
      (process_wake_word_detection c vad ts).2 =
        (first_callback_idx c.wake_callbacks).toList ∧
      (process_wake_word_detection c vad ts).2.length ≤ 1 ∧
      ((∃ b ∈ c.wake_callbacks, b = true) →
        ∃ j, (process_wake_word_detection c vad ts).2 = [j] ∧
          c.wake_callbacks.getD j false = true ∧
          ∀ i, i < j → c.wake_callbacks.getD i false = false)) := by
  constructor
  · intro h
    simp only [process_wake_word_detection, if_neg h]
    exact ⟨trivial, trivial⟩
  · intro h
    simp only [process_wake_word_detection, if_pos h]
    refine ⟨trivial, trivial, ?_, ?_⟩
    · cases hf : first_callback_idx c.wake_callbacks <;> simp [hf]
    · rintro ⟨b, hb, rfl⟩
      cases hf : first_callback_idx c.wake_callbacks with
      | none => exact absurd (first_callback_idx_none _ hf true hb) (by simp)
      | some j =>
        refine ⟨j, by simp [hf], ?_, ?_⟩
        · exact (first_callback_idx_some _ j hf).1
        · exact (first_callback_idx_some _ j hf).2

/-- Claim C6 counterexample: a detection with no registered wake-word
models increments `wake_detections` while invoking zero callbacks, so the
counter does not always equal the number of callback invocations and no
callback at all is invoked for this detection. -/
theorem wake_callback_counterexample :
    (process_wake_word_detection ctx_wake_empty true 0).1.stats.wake_detections = 1 ∧
    (process_wake_word_detection ctx_wake_empty true 0).2 = [] ∧
    (process_wake_word_detection ctx_wake_empty true 0).2.length ≠
      (process_wake_word_detection ctx_wake_empty true 0).1.stats.wake_detections := by
  refine ⟨rfl, rfl, ?_⟩
  intro hEq
  have h1 : (process_wake_word_detection ctx_wake_empty true 0).2.length = 0 := rfl
  have h2 : (process_wake_word_detection ctx_wake_empty true 0).1.stats.wake_detections = 1 := rfl
  omega

/-- Witness for `wake_callback_spec`: a detection with callbacks
[null, non-null, non-null] fires exactly the model at index 1. -/
theorem wake_callback_spec_witness :
    (process_wake_word_detection ctx_wake_three true 0).1.stats.wake_detections =
      ctx_wake_three.stats.wake_detections + 1 ∧
    (process_wake_word_detection ctx_wake_three true 0).2 =
      (first_callback_idx ctx_wake_three.wake_callbacks).toList ∧
    (process_wake_word_detection ctx_wake_three true 0).2 = [1] := by
  have h := (wake_callback_spec ctx_wake_three true 0).2 ⟨rfl, rfl⟩
  exact ⟨h.1, h.2.1, by rw [h.2.1]; rfl⟩

/-- Claim C1 (amended): the per-frame VAD decision. Channels are counted
against `noise_floor + 6` using the estimate from frame entry; the frame
count increments exactly when the average energy exceeds the
possibly-silence-updated floor plus 10 dB and at least `CHANNELS/2`
channels are active, resetting to 0 otherwise; `vad_active` holds exactly
when the resulting count reaches the threshold. -/
theorem vad_decision_spec (T : ℕ) (c : voice_context) (E : List ℚ) :
    ((detect_voice_activity T c E).1).noise_floor =
      (if c.vad_active = true then c.noise_floor
       else (95 / 100 : ℚ) * c.noise_floor + (1 - 95 / 100) * (E.sum / (E.length : ℚ))) ∧
    ((detect_voice_activity T c E).1).vad_frame_count =
      (if ((detect_voice_activity T c E).1).noise_floor + 10 < E.sum / (E.length : ℚ) ∧
          E.length / 2 ≤ (E.filter fun e => c.noise_floor + 6 < e).length
       then c.vad_frame_count + 1 else 0) ∧
    ((detect_voice_activity T c E).1).vad_active =
      decide (T ≤ ((detect_voice_activity T c E).1).vad_frame_count) ∧
    (detect_voice_activity T c E).2 = ((detect_voice_activity T c E).1).vad_active := by
  refine ⟨detect_fst_noise_floor T c E, ?_, ?_, ?_⟩
  · simp only [detect_voice_activity, update_noise_floor]
    cases h : c.vad_active <;>
      simp [h, Bool.and_eq_true, decide_eq_true_eq]
  · simp only [detect_voice_activity, update_noise_floor]
  · simp only [detect_voice_activity, update_noise_floor]

/-- Claim C1 counterexample: a silent context at noise floor -40 dBFS fed
four channels at -29.9 dBFS. The average energy exceeds the entry noise
floor + 10 dB and all four channels are active, so the claim's decision
rule demands an increment of `vad_frame_count` to 1; the code resets it to
0, because the silence update has already raised the floor before the
10 dB comparison. -/
theorem vad_decision_counterexample :
    ctx_vad_example.vad_active = false ∧
    ctx_vad_example.vad_frame_count = 0 ∧
    ctx_vad_example.noise_floor + 10 <
      (List.replicate 4 ((-299 : ℚ) / 10)).sum /
        (((List.replicate 4 ((-299 : ℚ) / 10)).length : ℕ) : ℚ) ∧
    (List.replicate 4 ((-299 : ℚ) / 10)).length / 2 ≤
      ((List.replicate 4 ((-299 : ℚ) / 10)).filter
        fun e => ctx_vad_example.noise_floor + 6 < e).length ∧
    ((detect_voice_activity 3 ctx_vad_example
        (List.replicate 4 ((-299 : ℚ) / 10))).1).vad_frame_count = 0 := by
  refine ⟨rfl, rfl, by norm_num [ctx_vad_example], by norm_num [ctx_vad_example], ?_⟩
  norm_num [ctx_vad_example, detect_voice_activity, update_noise_floor, zero_stats]

/-- Claim C2: along one iteration of the processing task, the noise floor
is unchanged when the previous frame left `vad_active` true, and otherwise
is replaced by the exponential moving average `0.95 * old + 0.05 * avg`
over the frame's average channel energy; no other part of the frame path
touches it. -/
theorem noise_floor_update_spec (T F : ℕ) (c : voice_context) (f : voice_frame_t) :
    (voice_processing_task_step T F c f).noise_floor =
      if c.vad_active = true then c.noise_floor
      else (95 / 100 : ℚ) * c.noise_floor +
        (1 - 95 / 100) * (f.energies.sum / (f.energies.length : ℚ)) := by
  simp only [voice_processing_task_step]
  rw [dispatch_stage_noise_floor, vad_count_stage_noise_floor, detect_fst_noise_floor]
  simp

/-- The VAD decision depends only on the noise floor, the previous
activity flag and the hysteresis counter. -/
theorem detect_snd_congr (T : ℕ) (c c₂ : voice_context) (E : List ℚ)
    (h1 : c.noise_floor = c₂.noise_floor) (h2 : c.vad_active = c₂.vad_active)
    (h3 : c.vad_frame_count = c₂.vad_frame_count) :
    (detect_voice_activity T c E).2 = (detect_voice_activity T c₂ E).2 := by
  simp only [detect_voice_activity, update_noise_floor, h1, h2, h3]
  cases hva : c₂.vad_active <;> simp [hva]

/-- Claim C7 (amended): `stats.vad_activations` increments by one on every
frame whose VAD decision comes out true — every active frame, not only
rising edges — and is untouched otherwise. -/
theorem vad_activations_spec (T F : ℕ) (c : voice_context) (f : voice_frame_t) :
    (voice_processing_task_step T F c f).stats.vad_activations =
      c.stats.vad_activations +
        (if (detect_voice_activity T c f.energies).2 = true then 1 else 0) := by
  simp only [voice_processing_task_step]
  rw [dispatch_stage_vad_activations, vad_count_stage_vad_activations,
    detect_fst_vad_activations]
  have hc : (detect_voice_activity T (beamform_stage (stats_frame_inc c)) f.energies).2 =
      (detect_voice_activity T c f.energies).2 :=
    detect_snd_congr T _ c f.energies (by simp) (by simp) (by simp)
  rw [hc]
  simp

/-- Claim C7 counterexample: after three loud frames `vad_active` is
already true with `vad_activations = 1`; a fourth loud frame is not a
rising edge (the flag stays true) yet the counter still increments to 2. -/
theorem vad_activations_counterexample :
    vad_run_warm.vad_active = true ∧
    vad_run_warm.stats.vad_activations = 1 ∧
    (voice_processing_task_step 3 480 vad_run_warm frame_zero).vad_active = true ∧
    (voice_processing_task_step 3 480 vad_run_warm frame_zero).stats.vad_activations = 2 := by
  norm_num [vad_run_warm, ctx_vad_example, frame_zero, voice_processing_task_step,
    beamform_stage, stats_frame_inc, apply_beamforming, detect_voice_activity,
    update_noise_floor, vad_count_stage, dispatch_stage, zero_stats, List.foldl,
    List.replicate]

/-- The state-machine switch leaves a context in ERROR untouched. -/
theorem dispatch_stage_error (F : ℕ) (c : voice_context) (vd : Bool)
    (f : voice_frame_t) (hc : c.state = VOICE_STATE_ERROR) :
    dispatch_stage F c vd f = c := by
  simp [dispatch_stage, hc]

/-- Claim C8 (amended): per-frame processing in ERROR leaves the state at
ERROR and `voice_reset` is the transition back to IDLE; but the ERROR
state is not absorbing for the public calls the claim lists:
`voice_stop_recording` moves any context, ERROR included, to PROCESSING,
and `voice_get_recording` with a nonempty recording moves it to IDLE. -/
theorem error_state_spec (T F : ℕ) (c : voice_context) (f : voice_frame_t)
    (bsz : ℕ) (h : c.state = VOICE_STATE_ERROR) :
    (voice_processing_task_step T F c f).state = VOICE_STATE_ERROR ∧
    (voice_stop_recording_ctx c).state = VOICE_STATE_PROCESSING ∧
    (0 < c.recording_size →
      (voice_get_recording_api (some c) true true bsz).2.1 =
        some { c with
               recording_size := 0, recording := [], state := VOICE_STATE_IDLE }) ∧
    (voice_reset_ctx c).state = VOICE_STATE_IDLE := by
  refine ⟨?_, rfl, ?_, rfl⟩
  · simp only [voice_processing_task_step]
    have hs : (vad_count_stage
        (detect_voice_activity T (beamform_stage (stats_frame_inc c)) f.energies).1
        (detect_voice_activity T (beamform_stage (stats_frame_inc c)) f.energies).2).state =
        VOICE_STATE_ERROR := by simp [h]
    rw [dispatch_stage_error _ _ _ _ hs, hs]
  · intro hsz
    have hne : c.recording_size ≠ 0 := by omega
    simp [voice_get_recording_api, hne]

/-- Claim C8 counterexample: `voice_stop_recording` invoked on a context
in ERROR moves the state machine to PROCESSING, so an operation other than
reset or deinit does change the state out of ERROR. -/
theorem error_state_counterexample :
    ctx_error_example.state = VOICE_STATE_ERROR ∧
    (voice_stop_recording (some ctx_error_example)).2 =
      some (voice_stop_recording_ctx ctx_error_example) ∧
    (voice_stop_recording_ctx ctx_error_example).state = VOICE_STATE_PROCESSING ∧
    VOICE_STATE_PROCESSING ≠ VOICE_STATE_ERROR :=
  ⟨rfl, rfl, rfl, by simp⟩

/-- Witness for `error_state_spec` at a concrete ERROR context with three
recorded bytes. -/
theorem error_state_spec_witness :
    (voice_processing_task_step 3 480 ctx_error_example frame_zero).state =
      VOICE_STATE_ERROR ∧
    (voice_stop_recording_ctx ctx_error_example).state = VOICE_STATE_PROCESSING ∧
    (voice_get_recording_api (some ctx_error_example) true true 8).2.1 =
      some { ctx_error_example with
             recording_size := 0, recording := [], state := VOICE_STATE_IDLE } ∧
    (voice_reset_ctx ctx_error_example).state = VOICE_STATE_IDLE := by
  have h := error_state_spec 3 480 ctx_error_example frame_zero 8 rfl
  exact ⟨h.1, h.2.1, h.2.2.1 (by norm_num [ctx_error_example]), h.2.2.2⟩

/-- Every appended frame contributes exactly `FRAME_LEN` 16-bit samples,
i.e. `FRAME_LEN * 2` bytes. -/
theorem frame_to_bytes_length (F : ℕ) (w : List ℚ) (s : List ℤ) :
    (frame_to_bytes F w s).length = F * 2 := by
  unfold frame_to_bytes
  rw [List.length_flatten, List.map_map]
  have h2 : ∀ l : List ℤ, (l.map (List.length ∘ encode_i16le)).sum = l.length * 2 := by
    intro l
    induction l with
    | nil => simp
    | cons a t ih =>
      simp only [List.map_cons, List.sum_cons, List.length_cons, Function.comp,
        encode_i16le, List.length_cons, List.length_nil, ih]
      omega
  rw [h2]
  simp [mono_mixdown]

theorem flatten_frame_bytes_length (F : ℕ) (w : List ℚ)
    (fs : List post_vad_frame) :
    ((fs.map fun f => frame_to_bytes F w f.samples).flatten).length =
      fs.length * (F * 2) := by
  induction fs with
  | nil => simp
  | cons f t ih =>
    simp [ih, frame_to_bytes_length]
    ring

/-- Folding the RECORDING-case handler over VAD-active frames that all fit
and none of which trips the recording timeout appends exactly their mono
mixdowns, in order, while preserving the session fields. -/
theorem recording_fold_invariant (F : ℕ) (frames : List post_vad_frame) :
    ∀ c : voice_context, c.is_recording = true →
      (∀ f ∈ frames, f.vad_active = true) →
      (∀ f ∈ frames,
        usub32 f.timestamp_ms c.recording_start_time ≤ c.max_recording_duration) →
      c.recording_size + frames.length * (F * 2) ≤ c.recording_capacity →
      ((frames.foldl (recording_case_step F) c).state = c.state ∧
       (frames.foldl (recording_case_step F) c).is_recording = true ∧
       (frames.foldl (recording_case_step F) c).recording_size =
         c.recording_size + frames.length * (F * 2) ∧
       (frames.foldl (recording_case_step F) c).recording =
         c.recording ++
           (frames.map fun f => frame_to_bytes F c.beamform_weights f.samples).flatten) := by
  induction frames with
  | nil =>
    intro c h1 _ _ _
    exact ⟨rfl, h1, by simp, by simp⟩
  | cons f t ih =>
    intro c hrec hvad hts hcap
    have hv : f.vad_active = true := hvad f (List.mem_cons_self f t)
    have ht : usub32 f.timestamp_ms c.recording_start_time ≤
        c.max_recording_duration := hts f (List.mem_cons_self f t)
    have hexpand : (t.length + 1) * (F * 2) = t.length * (F * 2) + F * 2 := by ring
    have hfits : c.recording_size + F * 2 ≤ c.recording_capacity := by
      simp only [List.length_cons] at hcap
      omega
    have hstep : recording_case_step F c f =
        { c with
          recording := c.recording ++ frame_to_bytes F c.beamform_weights f.samples,
          recording_size := c.recording_size + F * 2 } := by
      unfold recording_case_step
      rw [if_pos ⟨hv, hrec⟩]
      unfold voice_record_append
      rw [if_pos hfits]
      unfold voice_recording_timeout_check
      rw [if_neg (by simpa using not_lt.mpr ht)]
    have hfold : (f :: t).foldl (recording_case_step F) c =
        t.foldl (recording_case_step F)
          { c with
            recording := c.recording ++ frame_to_bytes F c.beamform_weights f.samples,
            recording_size := c.recording_size + F * 2 } := by
      rw [List.foldl_cons, hstep]
    obtain ⟨hst, hir, hsz, hbuf⟩ := ih
      { c with
        recording := c.recording ++ frame_to_bytes F c.beamform_weights f.samples,
        recording_size := c.recording_size + F * 2 }
      hrec (fun g hg => hvad g (List.mem_cons_of_mem f hg))
      (fun g hg => hts g (List.mem_cons_of_mem f hg))
      (by
        simp only [List.length_cons] at hcap
        simp only []
        omega)
    refine ⟨?_, ?_, ?_, ?_⟩
    · rw [hfold, hst]
    · rw [hfold, hir]
    · rw [hfold, hsz]
      simp only [List.length_cons, hexpand]
      omega
    · rw [hfold, hbuf]
      simp [List.append_assoc]

/-- Claim C5: for a recording session (state RECORDING, empty recording) in
which exactly the given VAD-active frames are appended, all fitting in the
capacity and none tripping the timeout, `voice_get_recording` into a big
enough buffer reports exactly `N * FRAME_LEN * 2` bytes, and the bytes are
the concatenated little-endian encodings of the weighted, saturating mono
mixdowns of the frames. -/
theorem recording_roundtrip (F : ℕ) (c : voice_context)
    (frames : List post_vad_frame) (bsz : ℕ)
    (hstate : c.state = VOICE_STATE_RECORDING)
    (hrec : c.is_recording = true)
    (hsz : c.recording_size = 0) (hbuf : c.recording = [])
    (hvad : ∀ f ∈ frames, f.vad_active = true)
    (hts : ∀ f ∈ frames,
      usub32 f.timestamp_ms c.recording_start_time ≤ c.max_recording_duration)
    (hfit : frames.length * (F * 2) ≤ c.recording_capacity)
    (hbsz : frames.length * (F * 2) ≤ bsz) :
    (frames.foldl (recording_case_step F) c).state = VOICE_STATE_RECORDING ∧
    (voice_get_recording_api (some (frames.foldl (recording_case_step F) c))
        true true bsz).1 = VOICE_OK ∧
    (voice_get_recording_api (some (frames.foldl (recording_case_step F) c))
        true true bsz).2.2.1 = some (frames.length * (F * 2)) ∧
    (voice_get_recording_api (some (frames.foldl (recording_case_step F) c))
        true true bsz).2.2.2 =
      (frames.map fun f => frame_to_bytes F c.beamform_weights f.samples).flatten := by
  obtain ⟨hst, hir, hsize, hbufr⟩ :=
    recording_fold_invariant F frames c hrec hvad hts (by omega)
  have hfsize : (frames.foldl (recording_case_step F) c).recording_size =
      frames.length * (F * 2) := by omega
  have hflen :
      ((frames.map fun f => frame_to_bytes F c.beamform_weights f.samples).flatten).length =
        frames.length * (F * 2) := flatten_frame_bytes_length F c.beamform_weights frames
  have hfrec : (frames.foldl (recording_case_step F) c).recording =
      (frames.map fun f => frame_to_bytes F c.beamform_weights f.samples).flatten := by
    rw [hbufr, hbuf, List.nil_append]
  refine ⟨by rw [hst, hstate], ?_, ?_, ?_⟩
  · by_cases h0 : frames.length * (F * 2) = 0
    · simp [voice_get_recording_api, hfsize, h0]
    · have hne : (frames.foldl (recording_case_step F) c).recording_size ≠ 0 := by omega
      simp [voice_get_recording_api, hne]
  · by_cases h0 : frames.length * (F * 2) = 0
    · simp [voice_get_recording_api, hfsize, h0]
    · have hne : (frames.foldl (recording_case_step F) c).recording_size ≠ 0 := by omega
      simp only [voice_get_recording_api, Bool.and_self, if_true, if_neg hne]
      rw [hfsize, Nat.min_eq_left hbsz]
  · by_cases h0 : frames.length * (F * 2) = 0
    · have hnil :
          (frames.map fun f => frame_to_bytes F c.beamform_weights f.samples).flatten = [] :=
        List.eq_nil_of_length_eq_zero (by rw [hflen, h0])
      simp [voice_get_recording_api, hfsize, h0, hnil]
    · have hne : (frames.foldl (recording_case_step F) c).recording_size ≠ 0 := by omega
      simp only [voice_get_recording_api, Bool.and_self, if_true, if_neg hne]
      rw [hfsize, Nat.min_eq_left hbsz, hfrec, ← hflen, List.take_length]

/-- Witness for `recording_roundtrip`: two appended two-sample stereo
frames produce exactly 8 bytes, the little-endian encodings of the mono
samples 150 and 350, twice. -/
theorem recording_roundtrip_witness :
    (voice_get_recording_api
        (some ([pv_frame_example, pv_frame_example].foldl (recording_case_step 2)
          ctx_recording_example)) true true 64).2.2.1 = some 8 ∧
    (voice_get_recording_api
        (some ([pv_frame_example, pv_frame_example].foldl (recording_case_step 2)
          ctx_recording_example)) true true 64).2.2.2 =
      [150, 0, 94, 1, 150, 0, 94, 1] := by
  have h := recording_roundtrip 2 ctx_recording_example
    [pv_frame_example, pv_frame_example] 64 rfl rfl rfl rfl
    (by decide) (by decide) (by decide) (by decide)
  refine ⟨?_, ?_⟩
  · rw [h.2.2.1]
    norm_num
  · rw [h.2.2.2]
    with_unfolding_all rfl
